import Mathlib

/-!
Shallow embedding of `rand_os/src/wasm32_bindgen.rs`: the wasm32
(bindgen-based) backend of the `rand_os` OS entropy source.

The source detects at construction time whether it runs in a browser-like
context (the global object exposes a `self` property) or in a Node-like host
runtime, and binds to `crypto.getRandomValues` or `require("crypto")`'s
`randomFillSync` respectively.  We model JavaScript values just enough to
distinguish `undefined` from defined values, model the global context as an
environment record supplying each property the code reads, and make every
external interaction (property reads, module acquisition, delegate
invocations) explicit as a trace of probe events so that frame conditions
("`crypto` is never read", "no fill function is invoked during
construction") become provable statements.
-/

namespace Wasm32Bindgen

/-- A JavaScript value, modelled only up to definedness: the code under
study only ever compares values against `undefined`; defined values carry
an opaque identifier so that distinct handles stay distinct. -/
inductive JsValue where
  | undefined : JsValue
  | defined (id : Nat) : JsValue
deriving DecidableEq, Repr

/-- Embeds `JsValue::is_undefined`. -/
def JsValue.isUndefined : JsValue → Bool
  | JsValue.undefined => true
  | JsValue.defined _ => false

theorem JsValue.isUndefined_iff (v : JsValue) :
    v.isUndefined = true ↔ v = JsValue.undefined := by
  cases v <;> simp [JsValue.isUndefined]

/-- Error kinds of `rand_core::ErrorKind` (version used by this crate). -/
inductive ErrorKind where
  | Unavailable : ErrorKind
  | Unexpected : ErrorKind
  | Transient : ErrorKind
  | NotReady : ErrorKind
deriving DecidableEq, Repr

/-- Embeds `rand_core::Error` as constructed by `Error::new(kind, msg)`. -/
structure Error where
  kind : ErrorKind
  msg : String
deriving DecidableEq, Repr

/-- Handle to the Node crypto module, as returned by `node_require("crypto")`:
we record the module name it was acquired under. -/
structure NodeCrypto where
  moduleName : String
deriving DecidableEq, Repr

/-- Handle to the browser `crypto` object (the `BrowserCrypto` extern type):
we record the underlying JavaScript value it was converted from. -/
structure BrowserCrypto where
  value : JsValue
deriving DecidableEq, Repr

/-- Embeds `pub enum OsRng { Node(NodeCrypto), Browser(BrowserCrypto) }`. -/
inductive OsRng where
  | Node (n : NodeCrypto) : OsRng
  | Browser (b : BrowserCrypto) : OsRng
deriving DecidableEq, Repr

/-- The host environment as seen by `OsRng::new`: the global object obtained
by `Function::new("return this").call(&JsValue::undefined())`, and the values
of the properties the code may read off it (`self`, `crypto`, and the
`getRandomValues` function reference on the crypto object). -/
structure Env where
  globalThis : JsValue
  self_ : JsValue
  crypto : JsValue
  get_random_values_fn : JsValue
deriving DecidableEq, Repr

/-- One observable interaction with the host environment. -/
inductive Probe where
  | readSelf : Probe
  | readCrypto : Probe
  | readGetRandomValuesFn : Probe
  | requireModule (name : String) : Probe
  | invokeRandomFillSync (h : NodeCrypto) : Probe
  | invokeGetRandomValues (h : BrowserCrypto) : Probe
deriving DecidableEq, Repr

/-- Whether a probe invokes a random-fill delegate (as opposed to a
read-only property lookup or module acquisition). -/
def Probe.isInvoke : Probe → Bool
  | Probe.invokeRandomFillSync _ => true
  | Probe.invokeGetRandomValues _ => true
  | _ => false

/-- Outcome of `OsRng::new`: `Ok`, a recoverable `Err`, or the process
abort caused by the `assert!(this != JsValue::undefined())` failing. -/
inductive NewOutcome where
  | ok (rng : OsRng) : NewOutcome
  | err (e : Error) : NewOutcome
  | assertFailed : NewOutcome
deriving DecidableEq, Repr

/-- Embeds `OsRng::new` together with the trace of environment probes it
performs, in source order:
1. obtain the global object and `assert!` it is not undefined;
2. read `self` off it; if undefined, return `Ok(Node(require("crypto")))`;
3. read `crypto` off it; if undefined, fail `Unavailable`,
   "self.crypto is undefined";
4. read the `getRandomValues` function reference off the crypto object;
   if undefined, fail `Unavailable`, "crypto.getRandomValues is undefined";
5. otherwise return `Ok(Browser(crypto))`. -/
def OsRng.new (env : Env) : NewOutcome × List Probe :=
  if env.globalThis = JsValue.undefined then
    (NewOutcome.assertFailed, [])
  else if env.self_ = JsValue.undefined then
    (NewOutcome.ok (OsRng.Node ⟨"crypto"⟩),
     [Probe.readSelf, Probe.requireModule "crypto"])
  else if env.crypto.isUndefined then
    (NewOutcome.err ⟨ErrorKind.Unavailable, "self.crypto is undefined"⟩,
     [Probe.readSelf, Probe.readCrypto])
  else if env.get_random_values_fn.isUndefined then
    (NewOutcome.err ⟨ErrorKind.Unavailable, "crypto.getRandomValues is undefined"⟩,
     [Probe.readSelf, Probe.readCrypto, Probe.readGetRandomValuesFn])
  else
    (NewOutcome.ok (OsRng.Browser ⟨env.crypto⟩),
     [Probe.readSelf, Probe.readCrypto, Probe.readGetRandomValuesFn])

/-- Behaviour of the two external fill delegates: each maps the handle and
the destination buffer to the buffer contents after the in-place fill. -/
structure FillEnv where
  random_fill_sync : NodeCrypto → List Nat → List Nat
  get_random_values : BrowserCrypto → List Nat → List Nat

/-- Embeds `OsRng::fill_chunk`: match on the variant, invoke the bound
delegate on `dest`, return `Ok(())`.  The result carries the (unchanged)
receiver state, the `Result`, the buffer after the in-place fill, and the
trace of delegate invocations. -/
def OsRng.fill_chunk (rng : OsRng) (env : FillEnv) (dest : List Nat) :
    OsRng × Except Error Unit × List Nat × List Probe :=
  match rng with
  | OsRng.Node n =>
      (rng, Except.ok (), env.random_fill_sync n dest,
       [Probe.invokeRandomFillSync n])
  | OsRng.Browser b =>
      (rng, Except.ok (), env.get_random_values b dest,
       [Probe.invokeGetRandomValues b])

/-- `usize::max_value()` on the wasm32 target (32-bit pointers). -/
def usizeMax : Nat := 2 ^ 32 - 1

/-- Embeds `OsRng::max_chunk_size`. -/
def OsRng.max_chunk_size : OsRng → Nat
  | OsRng.Node _ => usizeMax
  | OsRng.Browser _ => 65536

/-- Embeds `OsRng::method_str`. -/
def OsRng.method_str : OsRng → String
  | OsRng.Node _ => "crypto.randomFillSync"
  | OsRng.Browser _ => "crypto.getRandomValues"

/-- A concrete browser-like environment whose crypto object lacks
`getRandomValues`: global object, `self` and `crypto` all defined, the
`getRandomValues` function reference undefined. -/
def envBrowserNoGRV : Env :=
  ⟨JsValue.defined 0, JsValue.defined 1, JsValue.defined 2, JsValue.undefined⟩

/-- A concrete Node-like environment: global object defined, `self`
undefined. -/
def envNode : Env :=
  ⟨JsValue.defined 0, JsValue.undefined, JsValue.defined 2, JsValue.defined 3⟩

/-- A concrete browser-like environment exposing `self` but with `crypto`
undefined. -/
def envBrowserNoCrypto : Env :=
  ⟨JsValue.defined 0, JsValue.defined 1, JsValue.undefined, JsValue.undefined⟩

/-- A concrete fully capable browser-like environment: global object,
`self`, `crypto` and `getRandomValues` all defined. -/
def envBrowserFull : Env :=
  ⟨JsValue.defined 0, JsValue.defined 1, JsValue.defined 2, JsValue.defined 3⟩

/-- C1 counterexample: in a browser-like context with a crypto object
lacking `getRandomValues`, the construction error's message is not
"self.crypto.getRandomValues is undefined" as the claim states (the code
uses "crypto.getRandomValues is undefined", without the "self." prefix). -/
theorem c1_counterexample :
    (OsRng.new envBrowserNoGRV).1 ≠
      NewOutcome.err
        ⟨ErrorKind.Unavailable, "self.crypto.getRandomValues is undefined"⟩ := by
  decide

/-- C1 (amended): for every global context exposing `self`, a defined
`crypto` object, and an undefined `getRandomValues` function reference on
it, construction fails with kind `Unavailable` and message exactly
"crypto.getRandomValues is undefined". -/
theorem c1_missing_getRandomValues (env : Env)
    (hthis : env.globalThis ≠ JsValue.undefined)
    (hself : env.self_ ≠ JsValue.undefined)
    (hcrypto : env.crypto ≠ JsValue.undefined)
    (hfn : env.get_random_values_fn = JsValue.undefined) :
    (OsRng.new env).1 =
      NewOutcome.err
        ⟨ErrorKind.Unavailable, "crypto.getRandomValues is undefined"⟩ := by
  have hc : env.crypto.isUndefined = false := by
    cases h : env.crypto
    · exact absurd h hcrypto
    · rfl
  have hf : env.get_random_values_fn.isUndefined = true := by
    rw [hfn]; rfl
  unfold OsRng.new
  rw [if_neg hthis, if_neg hself, hc, hf]
  rfl

/-- C1 witness: the amended theorem applied to the concrete environment
`envBrowserNoGRV`. -/
theorem c1_missing_getRandomValues_witness :
    (OsRng.new envBrowserNoGRV).1 =
      NewOutcome.err
        ⟨ErrorKind.Unavailable, "crypto.getRandomValues is undefined"⟩ :=
  c1_missing_getRandomValues envBrowserNoGRV (by decide) (by decide)
    (by decide) (by decide)

/-- C2: for every global context whose `self` property is undefined,
construction succeeds with the Node variant bound to the module acquired
by name "crypto", the probe trace is exactly the `self` read followed by
the module acquisition, and in particular the `crypto` property is never
read. -/
theorem c2_node_branch (env : Env)
    (hthis : env.globalThis ≠ JsValue.undefined)
    (hself : env.self_ = JsValue.undefined) :
    (OsRng.new env).1 = NewOutcome.ok (OsRng.Node ⟨"crypto"⟩) ∧
    (OsRng.new env).2 = [Probe.readSelf, Probe.requireModule "crypto"] ∧
    Probe.readCrypto ∉ (OsRng.new env).2 := by
  unfold OsRng.new
  rw [if_neg hthis, if_pos hself]
  refine ⟨rfl, rfl, ?_⟩
  decide

/-- C2 witness: the theorem applied to the concrete environment `envNode`. -/
theorem c2_node_branch_witness :
    (OsRng.new envNode).1 = NewOutcome.ok (OsRng.Node ⟨"crypto"⟩) ∧
    (OsRng.new envNode).2 = [Probe.readSelf, Probe.requireModule "crypto"] ∧
    Probe.readCrypto ∉ (OsRng.new envNode).2 :=
  c2_node_branch envNode (by decide) (by decide)

/-- C3: for every global context exposing `self` but whose `crypto`
property is undefined, construction fails with kind `Unavailable` and
message exactly "self.crypto is undefined". -/
theorem c3_missing_crypto (env : Env)
    (hthis : env.globalThis ≠ JsValue.undefined)
    (hself : env.self_ ≠ JsValue.undefined)
    (hcrypto : env.crypto = JsValue.undefined) :
    (OsRng.new env).1 =
      NewOutcome.err ⟨ErrorKind.Unavailable, "self.crypto is undefined"⟩ := by
  have hc : env.crypto.isUndefined = true := by
    rw [hcrypto]; rfl
  unfold OsRng.new
  rw [if_neg hthis, if_neg hself, hc]
  rfl

/-- C3 witness: the theorem applied to the concrete environment
`envBrowserNoCrypto`. -/
theorem c3_missing_crypto_witness :
    (OsRng.new envBrowserNoCrypto).1 =
      NewOutcome.err ⟨ErrorKind.Unavailable, "self.crypto is undefined"⟩ :=
  c3_missing_crypto envBrowserNoCrypto (by decide) (by decide) (by decide)

/-- C4: for every global context exposing `self`, a defined `crypto`
object and a defined `getRandomValues` function reference, construction
succeeds with the Browser variant bound to that crypto object, and no
probe in the detection trace invokes a fill delegate (the function
reference is only read). -/
theorem c4_browser_branch (env : Env)
    (hthis : env.globalThis ≠ JsValue.undefined)
    (hself : env.self_ ≠ JsValue.undefined)
    (hcrypto : env.crypto ≠ JsValue.undefined)
    (hfn : env.get_random_values_fn ≠ JsValue.undefined) :
    (OsRng.new env).1 = NewOutcome.ok (OsRng.Browser ⟨env.crypto⟩) ∧
    ((OsRng.new env).2.all fun p => !p.isInvoke) = true := by
  have hc : env.crypto.isUndefined = false := by
    cases h : env.crypto
    · exact absurd h hcrypto
    · rfl
  have hf : env.get_random_values_fn.isUndefined = false := by
    cases h : env.get_random_values_fn
    · exact absurd h hfn
    · rfl
  unfold OsRng.new
  rw [if_neg hthis, if_neg hself, hc, hf]
  exact ⟨rfl, rfl⟩

/-- C4 witness: the theorem applied to the concrete environment
`envBrowserFull`. -/
theorem c4_browser_branch_witness :
    (OsRng.new envBrowserFull).1 =
      NewOutcome.ok (OsRng.Browser ⟨envBrowserFull.crypto⟩) ∧
    ((OsRng.new envBrowserFull).2.all fun p => !p.isInvoke) = true :=
  c4_browser_branch envBrowserFull (by decide) (by decide) (by decide)
    (by decide)

/-- C5: `max_chunk_size` is a pure function of the variant: exactly 65536
for the Browser variant and the maximum representable usize value for the
Node variant, for every instance; moreover a `fill_chunk` call leaves it
unchanged (no history dependence). -/
theorem c5_max_chunk_size :
    (∀ b : BrowserCrypto, (OsRng.Browser b).max_chunk_size = 65536) ∧
    (∀ n : NodeCrypto, (OsRng.Node n).max_chunk_size = usizeMax) ∧
    (∀ (rng : OsRng) (env : FillEnv) (dest : List Nat),
      ((rng.fill_chunk env dest).1).max_chunk_size = rng.max_chunk_size) := by
  refine ⟨fun b => rfl, fun n => rfl, fun rng env dest => ?_⟩
  cases rng <;> rfl

/-- C6: `fill_chunk` delegates exactly once to the bound variant's fill
function (`randomFillSync` for Node, `getRandomValues` for Browser),
passing the destination buffer to be filled in place, and returns success
unconditionally: the `Result` is `Ok(())` for every instance, delegate
behaviour and buffer, with no error produced or intercepted at this
layer. -/
theorem c6_fill_chunk (rng : OsRng) (env : FillEnv) (dest : List Nat) :
    (rng.fill_chunk env dest).2.1 = Except.ok () ∧
    (rng.fill_chunk env dest).2.2 =
      (match rng with
       | OsRng.Node n =>
           (env.random_fill_sync n dest, [Probe.invokeRandomFillSync n])
       | OsRng.Browser b =>
           (env.get_random_values b dest, [Probe.invokeGetRandomValues b])) := by
  cases rng <;> exact ⟨rfl, rfl⟩

/-- C7: `method_str` is a pure function of the variant: exactly
"crypto.randomFillSync" for the Node variant, exactly
"crypto.getRandomValues" for the Browser variant, and never empty. -/
theorem c7_method_str :
    (∀ n : NodeCrypto, (OsRng.Node n).method_str = "crypto.randomFillSync") ∧
    (∀ b : BrowserCrypto,
      (OsRng.Browser b).method_str = "crypto.getRandomValues") ∧
    (∀ rng : OsRng, rng.method_str ≠ "") := by
  refine ⟨fun n => rfl, fun b => rfl, fun rng => ?_⟩
  cases rng with
  | Node n => show "crypto.randomFillSync" ≠ ""; decide
  | Browser b => show "crypto.getRandomValues" ≠ ""; decide

/-- C8: construction aborts via the assertion exactly when retrieval of the
implicit global execution context yields `undefined`; under the
precondition that the global context is defined the assertion never fires
and construction proceeds to detection. -/
theorem c8_global_assert (env : Env) :
    (OsRng.new env).1 = NewOutcome.assertFailed ↔
      env.globalThis = JsValue.undefined := by
  constructor
  · intro h
    by_contra hthis
    unfold OsRng.new at h
    rw [if_neg hthis] at h
    by_cases hself : env.self_ = JsValue.undefined
    · rw [if_pos hself] at h
      exact NewOutcome.noConfusion h
    · rw [if_neg hself] at h
      by_cases hc : env.crypto.isUndefined
      · rw [if_pos hc] at h
        exact NewOutcome.noConfusion h
      · rw [if_neg hc] at h
        by_cases hf : env.get_random_values_fn.isUndefined
        · rw [if_pos hf] at h
          exact NewOutcome.noConfusion h
        · rw [if_neg hf] at h
          exact NewOutcome.noConfusion h
  · intro h
    unfold OsRng.new
    rw [if_pos h]

/-- C9: every instance is exactly one of the two variants (being the Node
variant is equivalent to not being the Browser variant), and `fill_chunk`
returns the receiver unchanged: no operation transitions an instance
between variants or alters its bound handle. -/
theorem c9_variant_fixed (rng : OsRng) (env : FillEnv) (dest : List Nat) :
    (rng.fill_chunk env dest).1 = rng ∧
    ((∃ n, rng = OsRng.Node n) ↔ ¬ ∃ b, rng = OsRng.Browser b) := by
  constructor
  · cases rng <;> rfl
  · cases rng with
    | Node n =>
        simp
    | Browser b =>
        simp

/-- C10: construction performs no fill-delegate invocation: every probe in
the trace of `OsRng.new` is a read-only lookup or module acquisition, for
every environment, so no random bytes are generated during construction. -/
theorem c10_new_no_invoke (env : Env) :
    ((OsRng.new env).2.all fun p => !p.isInvoke) = true := by
  unfold OsRng.new
  split_ifs <;> rfl

end Wasm32Bindgen
